import Mathlib

/-!
Verification of the client-side core of the-dozens-django
(src/static/js/scripts.js): the Fisher-Yates shuffle utility, the
PreloaderAnimation controller and the SpeechBubbleController, embedded
shallowly as Lean functions over explicit state records.

Conventions of the embedding:
  * JavaScript numbers used for geometry and animation progress are
    modelled as rationals; timestamps are integers (milliseconds).
  * DOM element references that may be null are modelled as Bool
    presence flags; dereferencing an absent element raises, modelled by
    functions returning Except String.
  * classList.add / classList.remove follow DOMTokenList semantics:
    add is a no-op when the class is already present, remove filters.
  * setInterval / clearInterval are modelled by a list of live interval
    handles together with a fresh-handle counter; clearInterval removes
    a handle from the live list and is a no-op on a dead handle.
  * Math.random draws of the shuffle are modelled by an oracle
    rand : Nat -> Nat giving, for loop index i, the chosen index
    j = floor(random * (i + 1)), which always satisfies j <= i.
-/

-- =========================================================================
-- Utils.shuffleArray (src/static/js/scripts.js lines 48-55)
-- =========================================================================

/-- Swap of the entries at positions i and j of a list, the meaning of
the destructuring assignment in the shuffle loop.  Out-of-range indices
leave the list unchanged (unreachable for the source's draws). -/
def listSwap {α : Type} (l : List α) (i j : Nat) : List α :=
  match l[i]?, l[j]? with
  | some a, some b => (l.set i b).set j a
  | _, _ => l

/-- Descending Fisher-Yates loop: processes index i, i-1, ..., 1,
swapping position i with position rand i. -/
def shuffleLoop {α : Type} (rand : Nat → Nat) : Nat → List α → List α
  | 0, l => l
  | i + 1, l => shuffleLoop rand i (listSwap l (i + 1) (rand (i + 1)))

namespace Utils

/-- Embedding of Utils.shuffleArray: copies the array and runs the
Fisher-Yates loop for i from length - 1 down to 1, swapping index i
with the drawn index rand i in [0, i]. -/
def shuffleArray {α : Type} (rand : Nat → Nat) (array : List α) : List α :=
  shuffleLoop rand (array.length - 1) array

end Utils

-- =========================================================================
-- CONFIG (src/static/js/scripts.js lines 13-33) and DOM token lists
-- =========================================================================

namespace CONFIG

/-- CONFIG.verticalSpacing. -/
def verticalSpacing : ℚ := 50

/-- CONFIG.phrases, the fixed Phrase Set. -/
def phrases : List String :=
  ["Generating witty dialog", "Prepping Insults", "Offending Mothers",
   "Debating Fathers", "Irritating Aunts", "Annoying Grandmothers",
   "Disparaging Grandfathers", "Frustrating Matriarchs", "Cracking jokes",
   "Slacking off"]

end CONFIG

/-- DOMTokenList add: a no-op when the class is already present. -/
def classListAdd (cs : List String) (c : String) : List String :=
  if c ∈ cs then cs else cs ++ [c]

/-- DOMTokenList remove. -/
def classListRemove (cs : List String) (c : String) : List String :=
  cs.filter (fun x => x != c)

-- =========================================================================
-- PreloaderAnimation (src/static/js/scripts.js lines 173-314)
-- =========================================================================

/-- Combined state of one PreloaderAnimation instance and the slice of
the page it touches: object fields, presence of the four required
elements, their DOM contents, and the timer bookkeeping. -/
structure PreloaderAnimation where
  phrases : List String
  isAnimating : Bool
  startTime : Option Int
  currentPhraseIndex : Nat
  messageInterval : Option Nat
  preloaderPresent : Bool
  phrasesPresent : Bool
  messagePresent : Bool
  contentPresent : Bool
  preloaderClasses : List String
  preloaderHidden : Bool
  contentClasses : List String
  overflowVisible : Bool
  renderedPhrases : List String
  completed : List Bool
  phrasesTranslateY : ℚ
  messageText : String
  activeIntervals : List Nat
  nextTimerId : Nat
  pendingStopTimeouts : Nat
  frameRequested : Bool
  errorLog : List String
deriving DecidableEq

/-- Per-item completion pass of updateAnimation: item at slot index i
gains the completed class exactly when progress * itemCount - i > 0,
and is never un-marked. -/
def markCompletedFrom (itemCount : Nat) (progress : ℚ) : Nat → List Bool → List Bool
  | _, [] => []
  | i, c :: rest =>
      (if progress * itemCount - i > 0 then true else c)
        :: markCompletedFrom itemCount progress (i + 1) rest

namespace PreloaderAnimation

/-- this.config.animationDuration of the preloader (3000 ms). -/
def animationDuration : ℚ := 3000

/-- Constructor: shuffles a copy of CONFIG.phrases with the given
random draws, zeroes the animation state, and looks up the four
elements (their presence given by the four flags). -/
def construct (rand : Nat → Nat) (pp ph pm pc : Bool) : PreloaderAnimation :=
  { phrases := Utils.shuffleArray rand CONFIG.phrases
    isAnimating := false
    startTime := none
    currentPhraseIndex := 0
    messageInterval := none
    preloaderPresent := pp
    phrasesPresent := ph
    messagePresent := pm
    contentPresent := pc
    preloaderClasses := []
    preloaderHidden := false
    contentClasses := []
    overflowVisible := false
    renderedPhrases := []
    completed := []
    phrasesTranslateY := 0
    messageText := ""
    activeIntervals := []
    nextTimerId := 0
    pendingStopTimeouts := 0
    frameRequested := false
    errorLog := [] }

/-- Names of the required elements that are missing. -/
def missingElements (w : PreloaderAnimation) : List String :=
  (if w.preloaderPresent then [] else ["preloader"]) ++
  (if w.phrasesPresent then [] else ["phrasesContainer"]) ++
  (if w.messagePresent then [] else ["messageElement"]) ++
  (if w.contentPresent then [] else ["contentWrapper"])

/-- validateElements: true exactly when every required element exists. -/
def validateElements (w : PreloaderAnimation) : Bool :=
  w.missingElements.isEmpty

/-- setupPhrases: clears the container and renders one PhraseItem per
phrase (label suffixed with an ellipsis, none completed yet).
Dereferences the phrases container. -/
def setupPhrases (w : PreloaderAnimation) : Except String PreloaderAnimation :=
  if w.phrasesPresent then
    Except.ok { w with
      renderedPhrases := w.phrases.map (fun p => p ++ "..."),
      completed := List.replicate w.phrases.length false }
  else Except.error "TypeError: phrasesContainer is null"

/-- updateAnimation: translates the phrase stack proportionally to the
progress and runs the completion pass over the rendered items. -/
def updateAnimation (w : PreloaderAnimation) (progress : ℚ) :
    Except String PreloaderAnimation :=
  if w.phrasesPresent then
    Except.ok { w with
      phrasesTranslateY := -progress * (w.phrases.length * CONFIG.verticalSpacing),
      completed := markCompletedFrom w.phrases.length progress 0 w.completed }
  else Except.error "TypeError: phrasesContainer is null"

/-- Progress computed by a frame fired at time now:
min((now - startTime) / animationDuration, 1). -/
def frameProgress (w : PreloaderAnimation) (now : Int) : ℚ :=
  min (((now - w.startTime.getD 0 : Int) : ℚ) / animationDuration) 1

/-- stop: ends the animation, cancels the message interval when one was
ever created (the handle is not nulled, so a second call re-clears the
same dead handle, a no-op), adds the fade-out class, and schedules the
deferred reveal. Dereferences the preloader element. -/
def stop (w : PreloaderAnimation) : Except String PreloaderAnimation :=
  if w.preloaderPresent then
    let w1 := { w with isAnimating := false }
    let w2 :=
      match w1.messageInterval with
      | some h => { w1 with activeIntervals := w1.activeIntervals.filter (fun x => x != h) }
      | none => w1
    Except.ok { w2 with
      preloaderClasses := classListAdd w2.preloaderClasses "fade-out",
      pendingStopTimeouts := w2.pendingStopTimeouts + 1 }
  else Except.error "TypeError: preloader is null"

/-- Body of the setTimeout scheduled by stop: hides the preloader,
reveals the content wrapper, and restores page scrolling. -/
def stopTimeoutBody (w : PreloaderAnimation) : Except String PreloaderAnimation :=
  if w.preloaderPresent && w.contentPresent then
    Except.ok { w with
      preloaderHidden := true,
      contentClasses := classListAdd w.contentClasses "show",
      overflowVisible := true,
      pendingStopTimeouts := w.pendingStopTimeouts - 1 }
  else Except.error "TypeError: null element in stop timeout"

/-- Runs n scheduled stop timeouts in order. -/
def flushStopTimeouts : Nat → PreloaderAnimation → Except String PreloaderAnimation
  | 0, w => Except.ok w
  | n + 1, w => do flushStopTimeouts n (← stopTimeoutBody w)

/-- animate: one frame. Returns immediately when not animating;
otherwise computes the capped progress, and while progress < 1 runs
updateAnimation and requests the next frame, else calls stop. -/
def animate (w : PreloaderAnimation) (now : Int) : Except String PreloaderAnimation :=
  if w.isAnimating = false then Except.ok w
  else
    let progress := frameProgress w now
    if progress < 1 then do
      let w1 ← updateAnimation w progress
      Except.ok { w1 with frameRequested := true }
    else stop w

/-- updateMessage: one tick of the message interval; advances the index
circularly and writes the phrase at the new index, suffixed with an
ellipsis, into the status-message element. -/
def updateMessage (w : PreloaderAnimation) : Except String PreloaderAnimation :=
  if w.messagePresent then
    let idx := (w.currentPhraseIndex + 1) % w.phrases.length
    Except.ok { w with
      currentPhraseIndex := idx,
      messageText := w.phrases.getD idx "undefined" ++ "..." }
  else Except.error "TypeError: messageElement is null"

/-- start: flags the animation as running, records the start time,
creates the message interval with a fresh handle, and runs the first
frame synchronously. -/
def start (w : PreloaderAnimation) (now : Int) : Except String PreloaderAnimation :=
  let h := w.nextTimerId
  let w1 := { w with
    isAnimating := true
    startTime := some now
    messageInterval := some h
    activeIntervals := w.activeIntervals ++ [h]
    nextTimerId := h + 1 }
  animate w1 now

/-- Embedding of the initialize method: aborts with a logged error when
any required element is missing, otherwise renders the phrases and
starts the animation. -/
def initializeAnimation (w : PreloaderAnimation) (now : Int) :
    Except String PreloaderAnimation :=
  if w.validateElements then do
    let w1 ← w.setupPhrases
    start w1 now
  else
    Except.ok { w with errorLog := w.errorLog ++
      ["[PreloaderAnimation] Missing required elements: "
        ++ String.intercalate ", " w.missingElements] }

end PreloaderAnimation

-- =========================================================================
-- SpeechBubbleController (src/static/js/scripts.js lines 323-597)
-- =========================================================================

/-- JavaScript values appearing in a parsed joke response object. -/
inductive JSVal where
  | str : String → JSVal
  | num : Int → JSVal
  | boolv : Bool → JSVal
  | nullv : JSVal
  | undef : JSVal
deriving DecidableEq

/-- JavaScript truthiness of a JSVal. -/
def JSVal.truthy : JSVal → Bool
  | .str s => s != ""
  | .num n => n != 0
  | .boolv b => b
  | .nullv => false
  | .undef => false

/-- String coercion applied when a JSVal is written into textContent. -/
def JSVal.toDisplay : JSVal → String
  | .str s => s
  | .num n => toString n
  | .boolv true => "true"
  | .boolv false => "false"
  | .nullv => "null"
  | .undef => "undefined"

/-- A parsed JSON response object: key-value pairs in insertion order. -/
def JokeResponse : Type := List (String × JSVal)

/-- Joke extraction on a successful response:
data.content || Object.values(data)[0]. A missing content key reads as
undefined (falsy); an empty object has undefined as its first value. -/
def extractJoke (data : JokeResponse) : JSVal :=
  let c := (List.lookup "content" data).getD JSVal.undef
  if c.truthy then c else ((data.map Prod.snd).headD JSVal.undef)

/-- The reload-failure message written by loadNewJoke. -/
def failedMessage : String := "Failed to load joke. Please try again."

/-- The fixed fallback joke of the initial-load failure path. -/
def fallbackJoke : String :=
  "Yo momma is so fat that when she walked past the TV, I missed three episodes."

/-- Outcome of one fetch of the joke endpoint: a parsed response object
on a 2xx response, or an error for a network failure, a non-2xx status
(both throw before extraction) or a JSON parse failure. -/
def FetchOutcome : Type := Except Unit JokeResponse

/-- State of one SpeechBubbleController instance and the two display
regions it writes: the bubble-content span (created by the controller,
may be absent only in the guarded sense of the source's null checks)
and the page joke-of-the-day region. -/
structure SpeechBubbleController where
  currentJoke : Option JSVal
  isLoading : Bool
  speechPresent : Bool
  jokePresent : Bool
  speechText : String
  jokeText : String
  bubbleClasses : List String
  requests : Nat
deriving DecidableEq

namespace SpeechBubbleController

/-- Synchronous prefix of loadNewJoke, up to the fetch suspension
point: the isLoading guard, then setting the guard, the loading class,
the placeholder text, and issuing the request. The Bool tells whether
the body proceeded (false: guarded no-op). -/
def loadNewJokeStart (s : SpeechBubbleController) : SpeechBubbleController × Bool :=
  if s.isLoading then (s, false)
  else
    let s1 := { s with
      isLoading := true
      bubbleClasses := classListAdd s.bubbleClasses "loading" }
    let s2 :=
      if s1.speechPresent then { s1 with speechText := "Loading new joke..." } else s1
    ({ s2 with requests := s2.requests + 1 }, true)

/-- Continuation of loadNewJoke after the fetch resolves: success path
stores and displays the extracted joke, failure path writes the error
message into both regions and clears the stored joke; the finally
block always clears the guard and the loading class. -/
def loadNewJokeResume (outcome : FetchOutcome) (s : SpeechBubbleController) :
    SpeechBubbleController :=
  let s1 :=
    match outcome with
    | .ok data =>
        let j := extractJoke data
        let a := { s with currentJoke := some j }
        let b := if a.speechPresent then { a with speechText := j.toDisplay } else a
        if b.jokePresent then { b with jokeText := j.toDisplay } else b
    | .error _ =>
        let a := if s.speechPresent then { s with speechText := failedMessage } else s
        let b := if a.jokePresent then { a with jokeText := failedMessage } else a
        { b with currentJoke := none }
  { s1 with
    isLoading := false
    bubbleClasses := classListRemove s1.bubbleClasses "loading" }

/-- Whole loadNewJoke run with no interleaved caller: the synchronous
prefix followed, when not guarded, by the continuation on the fetch
outcome. -/
def loadNewJoke (outcome : FetchOutcome) (s : SpeechBubbleController) :
    SpeechBubbleController :=
  let p := loadNewJokeStart s
  if p.2 then loadNewJokeResume outcome p.1 else p.1

/-- loadInitialJoke: on success stores and displays the extracted joke
in both regions; on failure stores the fixed fallback joke and writes
it into the bubble-content region only. -/
def loadInitialJoke (outcome : FetchOutcome) (s : SpeechBubbleController) :
    SpeechBubbleController :=
  match outcome with
  | .ok data =>
      let j := extractJoke data
      let a := { s with requests := s.requests + 1, currentJoke := some j }
      let b := if a.speechPresent then { a with speechText := j.toDisplay } else a
      if b.jokePresent then { b with jokeText := j.toDisplay } else b
  | .error _ =>
      let a := { s with requests := s.requests + 1, currentJoke := some (JSVal.str fallbackJoke) }
      if a.speechPresent then { a with speechText := fallbackJoke } else a

end SpeechBubbleController

-- =========================================================================
-- positionBubble, non-mobile branch (src/static/js/scripts.js 475-517)
-- =========================================================================

/-- Icon bounding rectangle as returned by getBoundingClientRect. -/
structure DOMRect where
  left : ℚ
  top : ℚ
  width : ℚ
  height : ℚ
deriving DecidableEq

/-- Derived bottom edge of a DOMRect. -/
def DOMRect.bottom (r : DOMRect) : ℚ := r.top + r.height

/-- Resulting bubble placement: inline left/top and the two tail
class flags as they stand after the positioning call. -/
structure BubblePos where
  left : ℚ
  top : ℚ
  tailLeft : Bool
  tailRight : Bool
deriving DecidableEq

/-- Measured dimension with its falsy-fallback default:
offsetWidth || 250 and offsetHeight || 80 read 0 as absent. -/
def measuredOr (offset fallback : ℚ) : ℚ :=
  if offset = 0 then fallback else offset

/-- Proposed left edge: icon centre minus half the bubble width. -/
def proposedLeft (iconRect : DOMRect) (bubbleWidth : ℚ) : ℚ :=
  iconRect.left + iconRect.width / 2 - bubbleWidth / 2

/-- Proposed top edge: above the icon by the bubble height plus 15. -/
def proposedTop (iconRect : DOMRect) (bubbleHeight : ℚ) : ℚ :=
  iconRect.top - bubbleHeight - 15

/-- Non-mobile branch of positionBubble as a pure function of the icon
rectangle, the measured bubble size and the viewport width: clamps the
left edge at the 10px margins setting the matching tail flag, clears
both flags in the unclamped case, and flips below the icon when the
proposed top would clip the top of the viewport. -/
def positionBubble (iconRect : DOMRect) (offsetW offsetH viewportWidth : ℚ) : BubblePos :=
  let bubbleWidth := measuredOr offsetW 250
  let bubbleHeight := measuredOr offsetH 80
  let left0 := proposedLeft iconRect bubbleWidth
  let top0 := proposedTop iconRect bubbleHeight
  let lt :=
    if left0 < 10 then ((10 : ℚ), true, false)
    else if left0 + bubbleWidth > viewportWidth - 10 then
      (viewportWidth - bubbleWidth - 10, false, true)
    else (left0, false, false)
  let top := if top0 < 10 then iconRect.bottom + 15 else top0
  { left := lt.1, top := top, tailLeft := lt.2.1, tailRight := lt.2.2 }

-- =========================================================================
-- Helper runners and the literal statement of one spec sentence
-- =========================================================================

/-- Two redundant stop calls followed by the run of every reveal
timeout they scheduled; returns the state after the first stop, after
the second stop, and after the timeouts. -/
def stopStopFlush (w : PreloaderAnimation) :
    Except String (PreloaderAnimation × PreloaderAnimation × PreloaderAnimation) := do
  let w1 ← PreloaderAnimation.stop w
  let w2 ← PreloaderAnimation.stop w1
  let w3 ← PreloaderAnimation.flushStopTimeouts w2.pendingStopTimeouts w2
  Except.ok (w1, w2, w3)

/-- Statement of claim C7 exactly as written: every animation frame of
an animating preloader marks the PhraseItem at slot index i completed
whenever progress * itemCount - i > 0 (here the direction the source
violates on the final frame). -/
def claimC7AsStated : Prop :=
  ∀ (w : PreloaderAnimation) (now : Int) (t : PreloaderAnimation),
    w.isAnimating = true →
    PreloaderAnimation.animate w now = Except.ok t →
    ∀ i : Nat, i < w.phrases.length →
      PreloaderAnimation.frameProgress w now * w.phrases.length - i > 0 →
      t.completed.getD i false = true

-- =========================================================================
-- Theorems: Fisher-Yates shuffle permutes its input
-- =========================================================================
/-- Setting position i of a list changes the element counts by removing
one occurrence of the old entry and adding one of the new entry. -/
theorem count_set_add {α : Type} [DecidableEq α] (l : List α) :
    ∀ (i : Nat) (a b x : α), l[i]? = some a →
      (l.set i b).count x + (if a = x then 1 else 0)
          = l.count x + (if b = x then 1 else 0) := by
  induction l with
  | nil => intro i a b x h; simp at h
  | cons c t ih =>
    intro i a b x h
    cases i with
    | zero =>
      simp at h
      subst h
      simp [List.count_cons]
      split <;> split <;> simp_all
    | succ n =>
      simp at h
      have := ih n a b x h
      simp [List.set, List.count_cons]
      split <;> omega

/-- Swapping two positions never changes an element count. -/
theorem count_listSwap {α : Type} [DecidableEq α] (l : List α) (i j : Nat) (x : α) :
    (listSwap l i j).count x = l.count x := by
  unfold listSwap
  cases hi : l[i]? with
  | none => simp
  | some a =>
    cases hj : l[j]? with
    | none => simp
    | some b =>
      simp only []
      have hjb : (l.set i b)[j]? = some b := by
        by_cases hij : i = j
        · subst hij
          rw [List.getElem?_set_self', hi]
          rfl
        · rw [List.getElem?_set_ne hij, hj]
      have h1 := count_set_add l i a b x hi
      have h2 := count_set_add (l.set i b) j b a x hjb
      omega

/-- Swapping two positions yields a permutation. -/
theorem listSwap_perm {α : Type} [DecidableEq α] (l : List α) (i j : Nat) :
    (listSwap l i j).Perm l := by
  rw [List.perm_iff_count]
  intro a
  exact count_listSwap l i j a

/-- Every run of the Fisher-Yates loop permutes its input. -/
theorem shuffleLoop_perm {α : Type} [DecidableEq α] (rand : Nat → Nat) :
    ∀ (k : Nat) (l : List α), (shuffleLoop rand k l).Perm l := by
  intro k
  induction k with
  | zero => intro l; simp [shuffleLoop]
  | succ n ih =>
    intro l
    exact (ih (listSwap l (n + 1) (rand (n + 1)))).trans
      (listSwap_perm l (n + 1) (rand (n + 1)))

/-- Every run of shuffleArray permutes its input. -/
theorem shuffleArray_perm {α : Type} [DecidableEq α] (rand : Nat → Nat) (l : List α) :
    (Utils.shuffleArray rand l).Perm l :=
  shuffleLoop_perm rand (l.length - 1) l

/-- shuffleArray preserves length. -/
theorem shuffleArray_length {α : Type} [DecidableEq α] (rand : Nat → Nat) (l : List α) :
    (Utils.shuffleArray rand l).length = l.length :=
  (shuffleArray_perm rand l).length_eq


/-- C1: Utils.shuffleArray returns a permutation of its input — for
every sequence of Fisher-Yates draws (index i swapped with rand i in
[0, i], descending from the last index to 1), the output has the same
length and the same multiset of elements as the input. -/
theorem C1_shuffleArray_permutation (rand : Nat → Nat) (l : List String)
    (h : ∀ i, rand i ≤ i) :
    (Utils.shuffleArray rand l).Perm l ∧
    (Utils.shuffleArray rand l).length = l.length ∧
    ∀ x, (Utils.shuffleArray rand l).count x = l.count x :=
  ⟨shuffleArray_perm rand l, shuffleArray_length rand l,
    fun x => List.perm_iff_count.mp (shuffleArray_perm rand l) x⟩

/-- Witness for C1 at a concrete list and draw sequence. -/
theorem C1_witness :
    (Utils.shuffleArray (fun _ => 0) ["a", "b", "c"]).Perm ["a", "b", "c"] ∧
    (Utils.shuffleArray (fun _ => 0) ["a", "b", "c"]).length = 3 :=
  ⟨(C1_shuffleArray_permutation (fun _ => 0) ["a", "b", "c"] (fun i => Nat.zero_le i)).1,
   (C1_shuffleArray_permutation (fun _ => 0) ["a", "b", "c"] (fun i => Nat.zero_le i)).2.1⟩

/-- C6: the non-mobile branch of positionBubble proposes a position
horizontally centred above the icon, clamps the left edge to the 10px
margin with the tail-left flag set and tail-right cleared when it
would clip the left edge, clamps to viewportWidth - bubbleWidth - 10
with tail-right set and tail-left cleared when the right edge would
overflow, clears both flags otherwise, and flips the top below the
icon when the proposed top would clip the top margin; the result is a
pure function of the geometry. -/
theorem C6_positionBubble_spec (r : DOMRect) (ow oh vw : ℚ) :
    (proposedLeft r (measuredOr ow 250) < 10 →
      (positionBubble r ow oh vw).left = 10 ∧
      (positionBubble r ow oh vw).tailLeft = true ∧
      (positionBubble r ow oh vw).tailRight = false) ∧
    (¬ proposedLeft r (measuredOr ow 250) < 10 →
      proposedLeft r (measuredOr ow 250) + measuredOr ow 250 > vw - 10 →
      (positionBubble r ow oh vw).left = vw - measuredOr ow 250 - 10 ∧
      (positionBubble r ow oh vw).tailRight = true ∧
      (positionBubble r ow oh vw).tailLeft = false) ∧
    (¬ proposedLeft r (measuredOr ow 250) < 10 →
      ¬ proposedLeft r (measuredOr ow 250) + measuredOr ow 250 > vw - 10 →
      (positionBubble r ow oh vw).left = proposedLeft r (measuredOr ow 250) ∧
      (positionBubble r ow oh vw).tailLeft = false ∧
      (positionBubble r ow oh vw).tailRight = false) ∧
    (proposedTop r (measuredOr oh 80) < 10 →
      (positionBubble r ow oh vw).top = r.bottom + 15) ∧
    (¬ proposedTop r (measuredOr oh 80) < 10 →
      (positionBubble r ow oh vw).top = proposedTop r (measuredOr oh 80)) := by
  unfold positionBubble
  refine ⟨?_, ?_, ?_, ?_, ?_⟩
  · intro h1
    simp [if_pos h1]
  · intro h1 h2
    simp [if_neg h1, if_pos h2]
  · intro h1 h2
    simp [if_neg h1, if_neg h2]
  · intro h1
    simp [if_pos h1]
  · intro h1
    simp [if_neg h1]

/-- Witness for C6 at the spec scenario: icon at the left edge of a
1000-wide viewport, 250-wide bubble. -/
theorem C6_witness :
    (positionBubble ⟨0, 300, 40, 40⟩ 250 80 1000).left = 10 ∧
    (positionBubble ⟨0, 300, 40, 40⟩ 250 80 1000).tailLeft = true ∧
    (positionBubble ⟨0, 300, 40, 40⟩ 250 80 1000).tailRight = false :=
  (C6_positionBubble_spec ⟨0, 300, 40, 40⟩ 250 80 1000).1
    (by norm_num [proposedLeft, measuredOr])

-- =========================================================================
-- Theorems: SpeechBubbleController joke loading
-- =========================================================================

/-- A guarded call of loadNewJoke is a no-op. -/
theorem loadNewJoke_noop (t : SpeechBubbleController) (o : FetchOutcome)
    (h : t.isLoading = true) : SpeechBubbleController.loadNewJoke o t = t := by
  unfold SpeechBubbleController.loadNewJoke SpeechBubbleController.loadNewJokeStart
  simp [h]

/-- The synchronous prefix of an unguarded loadNewJoke call raises the
guard. -/
theorem loadNewJokeStart_isLoading (s : SpeechBubbleController)
    (h : s.isLoading = false) :
    (SpeechBubbleController.loadNewJokeStart s).1.isLoading = true := by
  unfold SpeechBubbleController.loadNewJokeStart
  simp [h]
  split <;> simp

/-- The synchronous prefix of an unguarded loadNewJoke call issues
exactly one request. -/
theorem loadNewJokeStart_requests (s : SpeechBubbleController)
    (h : s.isLoading = false) :
    (SpeechBubbleController.loadNewJokeStart s).1.requests = s.requests + 1 := by
  unfold SpeechBubbleController.loadNewJokeStart
  simp [h]
  split <;> simp

/-- The continuation of loadNewJoke issues no request. -/
theorem loadNewJokeResume_requests (o : FetchOutcome) (t : SpeechBubbleController) :
    (SpeechBubbleController.loadNewJokeResume o t).requests = t.requests := by
  cases o <;> simp only [SpeechBubbleController.loadNewJokeResume] <;>
    (repeat' split) <;> simp

/-- C3 counterexample: on a failed initial load the page joke-of-the-day
region is not updated — at a state where both regions exist and the
joke region holds previous text, that text survives loadInitialJoke,
so the fallback joke is not written into both regions as claimed. -/
theorem C3_counterexample :
    (SpeechBubbleController.loadInitialJoke (Except.error ())
      { currentJoke := none, isLoading := false, speechPresent := true,
        jokePresent := true, speechText := "Loading joke...",
        jokeText := "previous joke of the day", bubbleClasses := [],
        requests := 0 }).jokeText ≠ fallbackJoke := by
  decide

/-- C3 amended: whenever the fetch fails or the response status is
non-2xx, loadInitialJoke stores the fixed fallback string as the
current Joke and writes it into the bubble-content region (when that
element exists), never surfacing an error message; the page
joke-of-the-day region is left unchanged. -/
theorem C3_loadInitialJoke_failure_bubble_only (s : SpeechBubbleController) :
    (SpeechBubbleController.loadInitialJoke (Except.error ()) s).currentJoke
        = some (JSVal.str fallbackJoke) ∧
    (SpeechBubbleController.loadInitialJoke (Except.error ()) s).jokeText = s.jokeText ∧
    (SpeechBubbleController.loadInitialJoke (Except.error ()) s).speechText
        = (if s.speechPresent = true then fallbackJoke else s.speechText) := by
  unfold SpeechBubbleController.loadInitialJoke
  by_cases h : s.speechPresent = true <;> simp [h]

/-- C4: whenever the fetch fails or the response status is non-2xx and
both display regions exist, after loadNewJoke resolves both regions
contain the literal failure message, the stored current Joke is
cleared, and the isLoading guard is false afterwards regardless of
outcome. -/
theorem C4_loadNewJoke_failure (s : SpeechBubbleController)
    (hl : s.isLoading = false) (hs : s.speechPresent = true) (hj : s.jokePresent = true) :
    (SpeechBubbleController.loadNewJoke (Except.error ()) s).speechText = failedMessage ∧
    (SpeechBubbleController.loadNewJoke (Except.error ()) s).jokeText = failedMessage ∧
    (SpeechBubbleController.loadNewJoke (Except.error ()) s).currentJoke = none ∧
    (∀ o : FetchOutcome, (SpeechBubbleController.loadNewJoke o s).isLoading = false) := by
  unfold SpeechBubbleController.loadNewJoke SpeechBubbleController.loadNewJokeStart
    SpeechBubbleController.loadNewJokeResume
  refine ⟨by simp [hl, hs, hj], by simp [hl, hs, hj], by simp [hl, hs, hj], ?_⟩
  intro o
  cases o <;> simp [hl, hs, hj]

/-- Witness for C4 at a concrete fresh controller state. -/
theorem C4_witness :
    (SpeechBubbleController.loadNewJoke (Except.error ())
      { currentJoke := none, isLoading := false, speechPresent := true,
        jokePresent := true, speechText := "Loading joke...", jokeText := "",
        bubbleClasses := [], requests := 0 }).speechText = failedMessage :=
  (C4_loadNewJoke_failure _ rfl rfl rfl).1

/-- C5: at most one joke fetch is in flight — a loadNewJoke call made
while isLoading is true is a no-op issuing no request and changing no
state, so two back-to-back calls without awaiting the first issue
exactly one request. -/
theorem C5_single_flight (s : SpeechBubbleController) (o1 o2 : FetchOutcome)
    (h : s.isLoading = false) :
    (∀ (t : SpeechBubbleController) (o : FetchOutcome), t.isLoading = true →
        SpeechBubbleController.loadNewJoke o t = t) ∧
    (SpeechBubbleController.loadNewJokeStart s).1.isLoading = true ∧
    SpeechBubbleController.loadNewJoke o2 (SpeechBubbleController.loadNewJokeStart s).1
        = (SpeechBubbleController.loadNewJokeStart s).1 ∧
    (SpeechBubbleController.loadNewJokeResume o1
        (SpeechBubbleController.loadNewJoke o2
          (SpeechBubbleController.loadNewJokeStart s).1)).requests
        = s.requests + 1 := by
  have h1 := loadNewJokeStart_isLoading s h
  have h2 := loadNewJoke_noop (SpeechBubbleController.loadNewJokeStart s).1 o2 h1
  refine ⟨fun t o ht => loadNewJoke_noop t o ht, h1, h2, ?_⟩
  rw [h2, loadNewJokeResume_requests, loadNewJokeStart_requests s h]

/-- Witness for C5 at a concrete state: the second of two back-to-back
calls is a no-op. -/
theorem C5_witness :
    SpeechBubbleController.loadNewJoke (Except.error ())
        (SpeechBubbleController.loadNewJokeStart
          { currentJoke := none, isLoading := false, speechPresent := true,
            jokePresent := true, speechText := "", jokeText := "",
            bubbleClasses := [], requests := 0 }).1
      = (SpeechBubbleController.loadNewJokeStart
          { currentJoke := none, isLoading := false, speechPresent := true,
            jokePresent := true, speechText := "", jokeText := "",
            bubbleClasses := [], requests := 0 }).1 :=
  (C5_single_flight _ (Except.error ()) (Except.error ()) rfl).2.2.1

/-- C10: on success both load paths store the extracted joke, and the
extraction prefers the content field only when it is truthy — a
response whose content field is the empty string stores the first
value of the response object instead. -/
theorem C10_content_preference :
    (∀ (s : SpeechBubbleController) (data : JokeResponse), s.isLoading = false →
      (SpeechBubbleController.loadNewJoke (Except.ok data) s).currentJoke
        = some (extractJoke data)) ∧
    (∀ (s : SpeechBubbleController) (data : JokeResponse),
      (SpeechBubbleController.loadInitialJoke (Except.ok data) s).currentJoke
        = some (extractJoke data)) ∧
    (∀ (data : JokeResponse) (c : JSVal),
      List.lookup "content" data = some c → c.truthy = true →
        extractJoke data = c) ∧
    (∀ data : JokeResponse, List.lookup "content" data = some (JSVal.str "") →
      extractJoke data = (data.map Prod.snd).headD JSVal.undef) := by
  refine ⟨?_, ?_, ?_, ?_⟩
  · intro s data hl
    unfold SpeechBubbleController.loadNewJoke SpeechBubbleController.loadNewJokeStart
      SpeechBubbleController.loadNewJokeResume
    simp [hl]
    split <;> split <;> simp
  · intro s data
    unfold SpeechBubbleController.loadInitialJoke
    simp
    split <;> split <;> simp
  · intro data c hc ht
    unfold extractJoke
    rw [hc]
    simp [ht]
  · intro data hc
    unfold extractJoke
    rw [hc]
    simp [JSVal.truthy]

/-- Witness for C10: a truthy content field is preferred. -/
theorem C10_witness :
    extractJoke [("content", JSVal.str "X"), ("id", JSVal.num 7)] = JSVal.str "X" :=
  C10_content_preference.2.2.1 [("content", JSVal.str "X"), ("id", JSVal.num 7)]
    (JSVal.str "X") rfl rfl

-- =========================================================================
-- Theorems: PreloaderAnimation lifecycle
-- =========================================================================

/-- Adding a class leaves it present. -/
theorem classListAdd_self_mem (cs : List String) (c : String) :
    c ∈ classListAdd cs c := by
  unfold classListAdd
  split <;> simp_all

/-- Adding an already-present class is a no-op. -/
theorem classListAdd_noop (cs : List String) (c : String) (h : c ∈ cs) :
    classListAdd cs c = cs := by
  unfold classListAdd
  simp [h]

/-- Adding an absent class yields exactly one occurrence of it. -/
theorem classListAdd_count (cs : List String) (c : String) (h : c ∉ cs) :
    (classListAdd cs c).count c = 1 := by
  unfold classListAdd
  simp [h, List.count_eq_zero_of_not_mem h]

/-- Filtering out a handle twice equals filtering once. -/
theorem filter_bne_idem (l : List Nat) (h : Nat) :
    (l.filter (fun x => x != h)).filter (fun x => x != h)
      = l.filter (fun x => x != h) := by
  rw [List.filter_filter]
  simp

/-- stop succeeds whenever the preloader element exists. -/
theorem stop_isOk (v : PreloaderAnimation) (hp : v.preloaderPresent = true) :
    (PreloaderAnimation.stop v).isOk = true := by
  unfold PreloaderAnimation.stop
  rw [if_pos hp]
  rfl

/-- Field-level effect of a successful stop call. -/
theorem stop_spec (v : PreloaderAnimation) (t : PreloaderAnimation)
    (e : PreloaderAnimation.stop v = Except.ok t) :
    t.preloaderPresent = v.preloaderPresent ∧
    t.contentPresent = v.contentPresent ∧
    t.contentClasses = v.contentClasses ∧
    t.messageInterval = v.messageInterval ∧
    t.isAnimating = false ∧
    t.pendingStopTimeouts = v.pendingStopTimeouts + 1 ∧
    t.preloaderClasses = classListAdd v.preloaderClasses "fade-out" ∧
    t.activeIntervals = (match v.messageInterval with
      | some hdl => v.activeIntervals.filter (fun x => x != hdl)
      | none => v.activeIntervals) := by
  unfold PreloaderAnimation.stop at e
  by_cases hp : v.preloaderPresent = true
  · rw [if_pos hp] at e
    cases hm : v.messageInterval <;> rw [hm] at e <;>
      simp only [Except.ok.injEq] at e <;> subst e <;> simp
  · simp [hp] at e

/-- The reveal timeout body, evaluated when both elements exist. -/
theorem stopTimeoutBody_ok (v : PreloaderAnimation)
    (hp : v.preloaderPresent = true) (hc : v.contentPresent = true) :
    PreloaderAnimation.stopTimeoutBody v = Except.ok
      { v with
        preloaderHidden := true,
        contentClasses := classListAdd v.contentClasses "show",
        overflowVisible := true,
        pendingStopTimeouts := v.pendingStopTimeouts - 1 } := by
  unfold PreloaderAnimation.stopTimeoutBody
  simp [hp, hc]

/-- C2: stop is idempotent and safe — with the touched elements
present, a stop call (also one before any start) succeeds, a second
call succeeds, cancels no further interval and does not re-trigger the
fade-out class, and after every scheduled reveal timeout has run the
content region carries the show class exactly once. -/
theorem C2_stop_idempotent (w : PreloaderAnimation)
    (hp : w.preloaderPresent = true) (hc : w.contentPresent = true)
    (hshow : "show" ∉ w.contentClasses) (hfade : "fade-out" ∉ w.preloaderClasses)
    (hpend : w.pendingStopTimeouts = 0) :
    (∀ v : PreloaderAnimation, v.preloaderPresent = true →
      (PreloaderAnimation.stop v).isOk = true) ∧
    (∀ t1, PreloaderAnimation.stop w = Except.ok t1 →
      (PreloaderAnimation.stop t1).isOk = true ∧
      ∀ t2, PreloaderAnimation.stop t1 = Except.ok t2 →
        t2.activeIntervals = t1.activeIntervals ∧
        t2.preloaderClasses = t1.preloaderClasses ∧
        t2.preloaderClasses.count "fade-out" = 1 ∧
        (PreloaderAnimation.flushStopTimeouts t2.pendingStopTimeouts t2).isOk = true ∧
        ∀ t3, PreloaderAnimation.flushStopTimeouts t2.pendingStopTimeouts t2
                = Except.ok t3 →
          t3.contentClasses.count "show" = 1) := by
  refine ⟨fun v hpv => stop_isOk v hpv, ?_⟩
  intro t1 e1
  obtain ⟨f1p, f1c, f1cc, f1mi, -, f1pd, f1pc, f1ai⟩ := stop_spec w t1 e1
  have hp1 : t1.preloaderPresent = true := by rw [f1p]; exact hp
  refine ⟨stop_isOk t1 hp1, ?_⟩
  intro t2 e2
  obtain ⟨f2p, f2c, f2cc, f2mi, -, f2pd, f2pc, f2ai⟩ := stop_spec t1 t2 e2
  have hai : t2.activeIntervals = t1.activeIntervals := by
    rw [f2ai, f1mi]
    cases hm : w.messageInterval with
    | none => rfl
    | some hdl => rw [f1ai, hm]; exact filter_bne_idem w.activeIntervals hdl
  have hpc : t2.preloaderClasses = t1.preloaderClasses := by
    rw [f2pc, f1pc]
    exact classListAdd_noop _ _ (classListAdd_self_mem w.preloaderClasses "fade-out")
  have hcount : t2.preloaderClasses.count "fade-out" = 1 := by
    rw [hpc, f1pc]
    exact classListAdd_count _ _ hfade
  have hpd2 : t2.pendingStopTimeouts = 2 := by
    rw [f2pd, f1pd, hpend]
  have hp2 : t2.preloaderPresent = true := by rw [f2p]; exact hp1
  have hc2 : t2.contentPresent = true := by rw [f2c, f1c]; exact hc
  have hcc2 : t2.contentClasses = w.contentClasses := by rw [f2cc, f1cc]
  have hb1 := stopTimeoutBody_ok t2 hp2 hc2
  have hb2 := stopTimeoutBody_ok
    { t2 with
      preloaderHidden := true,
      contentClasses := classListAdd t2.contentClasses "show",
      overflowVisible := true,
      pendingStopTimeouts := t2.pendingStopTimeouts - 1 } hp2 hc2
  have hflush : PreloaderAnimation.flushStopTimeouts t2.pendingStopTimeouts t2
      = Except.ok { t2 with
          preloaderHidden := true,
          contentClasses := classListAdd (classListAdd t2.contentClasses "show") "show",
          overflowVisible := true,
          pendingStopTimeouts := t2.pendingStopTimeouts - 1 - 1 } := by
    rw [hpd2]
    show PreloaderAnimation.flushStopTimeouts 2 t2 = _
    unfold PreloaderAnimation.flushStopTimeouts
    rw [hb1]
    show PreloaderAnimation.flushStopTimeouts 1 _ = _
    unfold PreloaderAnimation.flushStopTimeouts
    rw [hb2]
    show PreloaderAnimation.flushStopTimeouts 0 _ = _
    unfold PreloaderAnimation.flushStopTimeouts
    simp
    omega
  refine ⟨hai, hpc, hcount, by rw [hflush]; rfl, ?_⟩
  intro t3 e3
  rw [hflush] at e3
  simp only [Except.ok.injEq] at e3
  subst e3
  simp only []
  rw [hcc2, classListAdd_noop _ _ (classListAdd_self_mem w.contentClasses "show")]
  exact classListAdd_count _ _ hshow

/-- Witness for C2: stop succeeds on a freshly constructed controller
with all elements present, before start was ever called. -/
theorem C2_witness :
    (PreloaderAnimation.stop
      (PreloaderAnimation.construct (fun _ => 0) true true true true)).isOk = true :=
  (C2_stop_idempotent (PreloaderAnimation.construct (fun _ => 0) true true true true)
    rfl rfl (by decide) (by decide) rfl).1
    (PreloaderAnimation.construct (fun _ => 0) true true true true) rfl

/-- Element-wise description of the completion pass: the item at
offset i of a pass started at counter s is marked exactly when the
condition holds at absolute index s + i, and keeps its flag otherwise. -/
theorem markCompletedFrom_getD (n : Nat) (p : ℚ) :
    ∀ (l : List Bool) (s i : Nat), i < l.length →
      (markCompletedFrom n p s l).getD i false
        = (if p * n - (s + i : Nat) > 0 then true else l.getD i false) := by
  intro l
  induction l with
  | nil =>
    intro s i hi
    simp at hi
  | cons c rest ih =>
    intro s i hi
    cases i with
    | zero =>
      simp [markCompletedFrom]
    | succ k =>
      have hk : k < rest.length := by simpa using hi
      have hs : s + 1 + k = s + (k + 1) := by omega
      have := ih (s + 1) k hk
      simp only [markCompletedFrom, List.getD_cons_succ]
      rw [this, hs]

/-- Bind of a success value in the Except monad reduces. -/
theorem exceptBind_ok {ε α β : Type} (a : α) (f : α → Except ε β) :
    (do let x ← (Except.ok a : Except ε α); f x) = f a := rfl

/-- A frame that fires while the capped progress is below 1 runs the
completion pass and requests the next frame. -/
theorem animate_lt (w : PreloaderAnimation) (now : Int)
    (ha : w.isAnimating = true) (hph : w.phrasesPresent = true)
    (hlt : PreloaderAnimation.frameProgress w now < 1) :
    PreloaderAnimation.animate w now = Except.ok { w with
      phrasesTranslateY := -(PreloaderAnimation.frameProgress w now)
        * (w.phrases.length * CONFIG.verticalSpacing),
      completed := markCompletedFrom w.phrases.length
        (PreloaderAnimation.frameProgress w now) 0 w.completed,
      frameRequested := true } := by
  unfold PreloaderAnimation.animate PreloaderAnimation.updateAnimation
  simp [ha, hph, hlt, exceptBind_ok]

/-- A frame that fires once the capped progress reached 1 is exactly a
stop call: it performs no completion pass. -/
theorem animate_stop_branch (w : PreloaderAnimation) (now : Int)
    (ha : w.isAnimating = true)
    (hge : ¬ PreloaderAnimation.frameProgress w now < 1) :
    PreloaderAnimation.animate w now = PreloaderAnimation.stop w := by
  unfold PreloaderAnimation.animate
  simp [ha, hge]

/-- C7 counterexample: the claim that every frame marks item i
completed whenever progress * itemCount - i > 0 fails on the frame
that reaches progress 1 — at elapsed time equal to the animation
duration the source calls stop without any marking, leaving every
item unmarked although the condition holds for all of them. -/
theorem C7_counterexample : ¬ claimC7AsStated := by
  intro hc
  set w0 : PreloaderAnimation :=
    { phrases := CONFIG.phrases, isAnimating := true, startTime := some 0,
      currentPhraseIndex := 0, messageInterval := none, preloaderPresent := true,
      phrasesPresent := true, messagePresent := true, contentPresent := true,
      preloaderClasses := [], preloaderHidden := false, contentClasses := [],
      overflowVisible := false, renderedPhrases := [],
      completed := List.replicate 10 false, phrasesTranslateY := 0,
      messageText := "", activeIntervals := [], nextTimerId := 0,
      pendingStopTimeouts := 0, frameRequested := false, errorLog := [] }
    with hw0
  set t0 : PreloaderAnimation :=
    { phrases := CONFIG.phrases, isAnimating := false, startTime := some 0,
      currentPhraseIndex := 0, messageInterval := none, preloaderPresent := true,
      phrasesPresent := true, messagePresent := true, contentPresent := true,
      preloaderClasses := ["fade-out"], preloaderHidden := false, contentClasses := [],
      overflowVisible := false, renderedPhrases := [],
      completed := List.replicate 10 false, phrasesTranslateY := 0,
      messageText := "", activeIntervals := [], nextTimerId := 0,
      pendingStopTimeouts := 1, frameRequested := false, errorLog := [] }
    with ht0
  have hfp : PreloaderAnimation.frameProgress w0 3000 = 1 := by
    rw [hw0]
    norm_num [PreloaderAnimation.frameProgress, PreloaderAnimation.animationDuration,
      min_def]
  have hA : PreloaderAnimation.animate w0 3000 = Except.ok t0 := by
    rw [animate_stop_branch w0 3000 (by rw [hw0]) (by rw [hfp]; exact lt_irrefl 1)]
    rw [hw0, ht0]
    rfl
  have hcond : PreloaderAnimation.frameProgress w0 3000
      * (w0.phrases.length : ℚ) - ((0 : Nat) : ℚ) > 0 := by
    rw [hfp, hw0]
    norm_num [CONFIG.phrases]
  have h := hc w0 3000 t0 (by rw [hw0]) hA 0 (by rw [hw0]; decide) hcond
  rw [ht0] at h
  exact absurd h (by decide)

/-- C7 amended: each frame computes the capped progress
min((now - startTime) / animationDuration, 1); while progress < 1 it
marks the item at slot i completed exactly when
progress * itemCount - i > 0 (keeping previously set flags) and
reschedules itself; the frame at progress = 1 is exactly a stop call
and performs no marking. -/
theorem C7_frame_rule (w : PreloaderAnimation) (now : Int)
    (ha : w.isAnimating = true) (hph : w.phrasesPresent = true)
    (hlen : w.completed.length = w.phrases.length) :
    (PreloaderAnimation.frameProgress w now < 1 →
      (PreloaderAnimation.animate w now).map
          (fun t => (t.frameRequested, t.completed))
        = Except.ok (true, markCompletedFrom w.phrases.length
            (PreloaderAnimation.frameProgress w now) 0 w.completed) ∧
      ∀ i : Nat, i < w.phrases.length →
        ((markCompletedFrom w.phrases.length
            (PreloaderAnimation.frameProgress w now) 0 w.completed).getD i false = true
          ↔ (PreloaderAnimation.frameProgress w now * w.phrases.length - (i : Nat) > 0
              ∨ w.completed.getD i false = true))) ∧
    (PreloaderAnimation.frameProgress w now = 1 →
      PreloaderAnimation.animate w now = PreloaderAnimation.stop w) ∧
    PreloaderAnimation.frameProgress w now ≤ 1 := by
  refine ⟨?_, ?_, min_le_right _ _⟩
  · intro hlt
    constructor
    · rw [animate_lt w now ha hph hlt]
      rfl
    · intro i hilen
      have hic : i < w.completed.length := by rw [hlen]; exact hilen
      rw [markCompletedFrom_getD w.phrases.length
        (PreloaderAnimation.frameProgress w now) w.completed 0 i hic]
      simp only [Nat.zero_add]
      split
      · simp_all
      · simp_all
  · intro h1
    exact animate_stop_branch w now ha (by rw [h1]; exact lt_irrefl 1)

/-- Witness for C7 at the frame reaching progress 1: the frame equals
a stop call. -/
theorem C7_witness :
    PreloaderAnimation.animate
      { phrases := CONFIG.phrases, isAnimating := true, startTime := some 0,
        currentPhraseIndex := 0, messageInterval := none, preloaderPresent := true,
        phrasesPresent := true, messagePresent := true, contentPresent := true,
        preloaderClasses := [], preloaderHidden := false, contentClasses := [],
        overflowVisible := false, renderedPhrases := [],
        completed := List.replicate 10 false, phrasesTranslateY := 0,
        messageText := "", activeIntervals := [], nextTimerId := 0,
        pendingStopTimeouts := 0, frameRequested := false, errorLog := [] } 3000
    = PreloaderAnimation.stop
      { phrases := CONFIG.phrases, isAnimating := true, startTime := some 0,
        currentPhraseIndex := 0, messageInterval := none, preloaderPresent := true,
        phrasesPresent := true, messagePresent := true, contentPresent := true,
        preloaderClasses := [], preloaderHidden := false, contentClasses := [],
        overflowVisible := false, renderedPhrases := [],
        completed := List.replicate 10 false, phrasesTranslateY := 0,
        messageText := "", activeIntervals := [], nextTimerId := 0,
        pendingStopTimeouts := 0, frameRequested := false, errorLog := [] } :=
  (C7_frame_rule _ 3000 rfl rfl (by decide)).2.1
    (by norm_num [PreloaderAnimation.frameProgress,
      PreloaderAnimation.animationDuration, min_def])

/-- validateElements on a freshly constructed controller is the
conjunction of the four presence flags. -/
theorem validateElements_construct (rand : Nat → Nat) (pp ph pm pc : Bool) :
    PreloaderAnimation.validateElements
        (PreloaderAnimation.construct rand pp ph pm pc)
      = (pp && ph && pm && pc) := by
  cases pp <;> cases ph <;> cases pm <;> cases pc <;> rfl

/-- Projection of the constructor state: the shuffled phrase list. -/
theorem construct_phrases (rand : Nat → Nat) (pp ph pm pc : Bool) :
    (PreloaderAnimation.construct rand pp ph pm pc).phrases
      = Utils.shuffleArray rand CONFIG.phrases := by
  simp only [PreloaderAnimation.construct]

/-- Projection of the constructor state: no live intervals yet. -/
theorem construct_activeIntervals (rand : Nat → Nat) (pp ph pm pc : Bool) :
    (PreloaderAnimation.construct rand pp ph pm pc).activeIntervals = [] := rfl


/-- Projection of the constructor state: the first timer handle is 0. -/
theorem construct_nextTimerId (rand : Nat → Nat) (pp ph pm pc : Bool) :
    (PreloaderAnimation.construct rand pp ph pm pc).nextTimerId = 0 := rfl


/-- Projection of the constructor state: no rendered phrases yet. -/
theorem construct_renderedPhrases (rand : Nat → Nat) (pp ph pm pc : Bool) :
    (PreloaderAnimation.construct rand pp ph pm pc).renderedPhrases = [] := rfl


/-- Projection of the constructor state: no interval handle stored. -/
theorem construct_messageInterval (rand : Nat → Nat) (pp ph pm pc : Bool) :
    (PreloaderAnimation.construct rand pp ph pm pc).messageInterval = none := rfl


/-- Projection of the constructor state: not yet animating. -/
theorem construct_isAnimating (rand : Nat → Nat) (pp ph pm pc : Bool) :
    (PreloaderAnimation.construct rand pp ph pm pc).isAnimating = false := rfl


/-- Projection of the constructor state: empty error log. -/
theorem construct_errorLog (rand : Nat → Nat) (pp ph pm pc : Bool) :
    (PreloaderAnimation.construct rand pp ph pm pc).errorLog = [] := rfl


/-- Projection of the constructor state: phrase index 0. -/
theorem construct_currentPhraseIndex (rand : Nat → Nat) (pp ph pm pc : Bool) :
    (PreloaderAnimation.construct rand pp ph pm pc).currentPhraseIndex = 0 := rfl


/-- Projection of the constructor state: the message element flag. -/
theorem construct_messagePresent (rand : Nat → Nat) (pp ph pm pc : Bool) :
    (PreloaderAnimation.construct rand pp ph pm pc).messagePresent = pm := rfl

/-- Full run of initialize on an all-elements-present fresh controller:
phrases are rendered, the animation starts, the message interval gets
handle 0, and the first synchronous frame (progress 0) runs. -/
theorem initializeAnimation_all_present (rand : Nat → Nat) (now : Int) :
    PreloaderAnimation.initializeAnimation
        (PreloaderAnimation.construct rand true true true true) now
      = Except.ok
        { PreloaderAnimation.construct rand true true true true with
          isAnimating := true
          startTime := some now
          messageInterval := some 0
          renderedPhrases := (Utils.shuffleArray rand CONFIG.phrases).map
            (fun p => p ++ "...")
          completed := markCompletedFrom
            (Utils.shuffleArray rand CONFIG.phrases).length 0 0
            (List.replicate (Utils.shuffleArray rand CONFIG.phrases).length false)
          phrasesTranslateY := 0
          activeIntervals := [0]
          nextTimerId := 1
          frameRequested := true } := by
  have hfp : ∀ v : PreloaderAnimation, v.startTime = some now →
      PreloaderAnimation.frameProgress v now = 0 := by
    intro v hv
    unfold PreloaderAnimation.frameProgress
    rw [hv]
    norm_num [PreloaderAnimation.animationDuration, min_def]
  unfold PreloaderAnimation.initializeAnimation
  rw [validateElements_construct]
  simp only [Bool.and_self]
  rw [if_pos trivial]
  unfold PreloaderAnimation.setupPhrases
  rw [if_pos (show (PreloaderAnimation.construct rand true true true true).phrasesPresent
    = true from rfl)]
  rw [exceptBind_ok]
  unfold PreloaderAnimation.start
  simp only []
  rw [animate_lt _ now rfl rfl (by rw [hfp _ rfl]; norm_num)]
  rw [hfp _ rfl]
  simp [construct_phrases, construct_activeIntervals, construct_nextTimerId]

/-- C8: initialize validates the required display regions first — when
any is missing it logs one error and aborts without rendering phrases,
without starting any timer and without raising; only when all four
exist does it render one PhraseItem per shuffled phrase and start the
animation with its message interval. -/
theorem C8_initialize_validation (rand : Nat → Nat) (pp ph pm pc : Bool) (now : Int) :
    ((pp && ph && pm && pc) = false →
      (PreloaderAnimation.initializeAnimation
          (PreloaderAnimation.construct rand pp ph pm pc) now).map
          (fun t => (t.renderedPhrases, t.activeIntervals, t.messageInterval,
            t.isAnimating, t.errorLog.length))
        = Except.ok ([], [], none, false, 1)) ∧
    ((pp && ph && pm && pc) = true →
      (PreloaderAnimation.initializeAnimation
          (PreloaderAnimation.construct rand pp ph pm pc) now).map
          (fun t => (t.phrases, t.renderedPhrases, t.isAnimating,
            t.messageInterval, t.errorLog))
        = Except.ok (Utils.shuffleArray rand CONFIG.phrases,
            (Utils.shuffleArray rand CONFIG.phrases).map (fun p => p ++ "..."),
            true, some 0, [])) := by
  constructor
  · intro hfalse
    unfold PreloaderAnimation.initializeAnimation
    rw [validateElements_construct, hfalse]
    simp [Except.map, construct_renderedPhrases, construct_activeIntervals,
      construct_messageInterval, construct_isAnimating, construct_errorLog]
  · intro htrue
    have hpp : pp = true := by
      cases pp <;> simp_all
    have hph : ph = true := by
      cases ph <;> simp_all
    have hpm : pm = true := by
      cases pm <;> simp_all
    have hpc : pc = true := by
      cases pc <;> simp_all
    subst hpp
    subst hph
    subst hpm
    subst hpc
    rw [initializeAnimation_all_present]
    simp [Except.map, construct_phrases, construct_isAnimating, construct_errorLog]

/-- Witness for C8: a fully present fresh controller initializes into
the started state. -/
theorem C8_witness :
    (PreloaderAnimation.initializeAnimation
        (PreloaderAnimation.construct (fun _ => 0) true true true true) 0).map
        (fun t => (t.phrases, t.renderedPhrases, t.isAnimating,
          t.messageInterval, t.errorLog))
      = Except.ok (Utils.shuffleArray (fun _ => 0) CONFIG.phrases,
          (Utils.shuffleArray (fun _ => 0) CONFIG.phrases).map (fun p => p ++ "..."),
          true, some 0, []) :=
  (C8_initialize_validation (fun _ => 0) true true true true 0).2 rfl

/-- C9: every message tick sets the phrase index to
(previous + 1) mod phrases.length, so the index stays in bounds, and
the tick after a fresh initialize shows the shuffled phrase at index
1, not index 0. -/
theorem C9_message_rotation :
    (∀ w : PreloaderAnimation, w.messagePresent = true → 0 < w.phrases.length →
      (PreloaderAnimation.updateMessage w).map (fun t => t.currentPhraseIndex)
        = Except.ok ((w.currentPhraseIndex + 1) % w.phrases.length) ∧
      ∀ t, PreloaderAnimation.updateMessage w = Except.ok t →
        t.currentPhraseIndex < w.phrases.length) ∧
    (∀ (rand : Nat → Nat) (now : Int) (w1 : PreloaderAnimation),
      PreloaderAnimation.initializeAnimation
          (PreloaderAnimation.construct rand true true true true) now
        = Except.ok w1 →
      (PreloaderAnimation.updateMessage w1).map
          (fun t => (t.currentPhraseIndex, t.messageText))
        = Except.ok (1,
            (Utils.shuffleArray rand CONFIG.phrases).getD 1 "undefined" ++ "...")) := by
  constructor
  · intro w hm hlen
    constructor
    · unfold PreloaderAnimation.updateMessage
      simp [hm, Except.map]
    · intro t ht
      unfold PreloaderAnimation.updateMessage at ht
      rw [if_pos hm] at ht
      simp only [Except.ok.injEq] at ht
      subst ht
      exact Nat.mod_lt _ hlen
  · intro rand now w1 e
    rw [initializeAnimation_all_present] at e
    simp only [Except.ok.injEq] at e
    subst e
    have hlen : (Utils.shuffleArray rand CONFIG.phrases).length = 10 := by
      rw [shuffleArray_length]
      rfl
    unfold PreloaderAnimation.updateMessage
    simp [Except.map, construct_phrases, construct_currentPhraseIndex,
      construct_messagePresent, hlen]

/-- Witness for C9 on a concrete fresh controller: one tick moves the
index from 0 to 1 mod 10. -/
theorem C9_witness :
    (PreloaderAnimation.updateMessage
        (PreloaderAnimation.construct (fun _ => 0) true true true true)).map
        (fun t => t.currentPhraseIndex)
      = Except.ok
        (((PreloaderAnimation.construct (fun _ => 0) true true true true).currentPhraseIndex
            + 1)
          % (PreloaderAnimation.construct (fun _ => 0) true true true true).phrases.length) :=
  (C9_message_rotation.1 (PreloaderAnimation.construct (fun _ => 0) true true true true)
    rfl (by decide)).1
